import Mathlib

/-!
Verification of `src/mdt/data/components/standard/library_functions/MRIConstants.h`,
a C header defining four MRI physical constants behind `#ifndef` guards:

  #ifndef GAMMA_H
      #define GAMMA_H 267.5987E6
  #endif
  #ifndef GAMMA_H_HZ
      #define GAMMA_H_HZ (GAMMA_H / (2 * M_PI))
  #endif
  #ifndef GAMMA_H_SQ
      #define GAMMA_H_SQ (GAMMA_H * GAMMA_H)
  #endif
  #ifndef GAMMA_H_HZ_SQ
      #define GAMMA_H_HZ_SQ (GAMMA_H_HZ * GAMMA_H_HZ)
  #endif

The numeric layer is embedded over `ℝ` (the literal 267.5987E6 is an integer,
267598700, hence exactly representable as a double; `M_PI` is the host math
library's double-precision π, embedded as `Real.pi`).  The preprocessor layer
(define-if-absent guards, repeated inclusion) is embedded as a state
transformer on the table of the four macro bindings.
-/

namespace MRIConstants

/-- The host math library's π constant, used by the header as `M_PI`. -/
noncomputable def M_PI : ℝ := Real.pi

/-- `#define GAMMA_H 267.5987E6` (when not predefined by the consumer). -/
noncomputable def GAMMA_H : ℝ := 267.5987E6

/-- `#define GAMMA_H_HZ (GAMMA_H / (2 * M_PI))`. -/
noncomputable def GAMMA_H_HZ : ℝ := GAMMA_H / (2 * M_PI)

/-- `#define GAMMA_H_SQ (GAMMA_H * GAMMA_H)`. -/
noncomputable def GAMMA_H_SQ : ℝ := GAMMA_H * GAMMA_H

/-- `#define GAMMA_H_HZ_SQ (GAMMA_H_HZ * GAMMA_H_HZ)`. -/
noncomputable def GAMMA_H_HZ_SQ : ℝ := GAMMA_H_HZ * GAMMA_H_HZ

lemma gamma_h_val : GAMMA_H = 267598700 := by
  unfold GAMMA_H; norm_num

lemma two_pi_pos : (0 : ℝ) < 2 * M_PI := by
  unfold M_PI; positivity

/-- Lower bound on `GAMMA_H_HZ` from the 20-digit lower/upper bounds on π. -/
lemma gamma_h_hz_lb : (42589655.8699 : ℝ) < GAMMA_H_HZ := by
  unfold GAMMA_H_HZ
  rw [lt_div_iff₀ two_pi_pos, gamma_h_val]
  unfold M_PI
  nlinarith [Real.pi_lt_d20]

/-- Upper bound on `GAMMA_H_HZ` from the 20-digit bounds on π. -/
lemma gamma_h_hz_ub : GAMMA_H_HZ < (42589655.87 : ℝ) := by
  unfold GAMMA_H_HZ
  rw [div_lt_iff₀ two_pi_pos, gamma_h_val]
  unfold M_PI
  nlinarith [Real.pi_gt_d20]

/-- The preprocessor's macro table restricted to the four names this header
may define.  `none` means the name is not yet defined; `some v` means it is
defined and evaluates to the double value `v` at any point of use. -/
structure MacroState where
  gamma_h : Option ℝ
  gamma_h_hz : Option ℝ
  gamma_h_sq : Option ℝ
  gamma_h_hz_sq : Option ℝ

/-- Effect of textually including `MRIConstants.h` once, as the preprocessor
evaluates it: the four `#ifndef`/`#define` blocks run in source order, each
defining its name only when absent.  Because macro bodies are expanded at the
point of use and the header never undefines anything, the value a derived
macro yields is computed from the bindings in effect after the earlier
blocks (`g` for blocks 2–3, `hz` for block 4). -/
noncomputable def includeMRIConstants (s : MacroState) : MacroState :=
  let g := s.gamma_h.getD 267.5987E6
  let hz := s.gamma_h_hz.getD (g / (2 * M_PI))
  let sq := s.gamma_h_sq.getD (g * g)
  let hz_sq := s.gamma_h_hz_sq.getD (hz * hz)
  ⟨some g, some hz, some sq, some hz_sq⟩

/-- The macro table of a translation unit that defined none of the four
names before including the header. -/
def freshState : MacroState := ⟨none, none, none, none⟩

lemma includeMRIConstants_idem (s : MacroState) :
    includeMRIConstants (includeMRIConstants s) = includeMRIConstants s := by
  obtain ⟨g, hz, sq, hz_sq⟩ := s
  simp [includeMRIConstants]

lemma includeMRIConstants_fresh :
    includeMRIConstants freshState =
      ⟨some GAMMA_H, some GAMMA_H_HZ, some GAMMA_H_SQ, some GAMMA_H_HZ_SQ⟩ := by
  simp [includeMRIConstants, freshState, GAMMA_H, GAMMA_H_HZ, GAMMA_H_SQ,
    GAMMA_H_HZ_SQ]

/-- Claim C1: for GammaH = 267.5987e6 the header's `GAMMA_H_HZ` (GammaH
divided by 2π) would equal 42577478.92 to within double-precision rounding.
This is FALSE: `GAMMA_H_HZ` exceeds 42577478.92 by more than 12000, so it is
not within any rounding tolerance (here even tolerance 10000 fails). -/
theorem C1_gamma_h_hz_not_42577478 :
    ¬ |GAMMA_H_HZ - 42577478.92| ≤ 10000 := by
  have h := gamma_h_hz_lb
  rw [abs_le]
  intro ⟨_, h2⟩
  norm_num at h2 h
  linarith

/-- Claim C1 (amended): `GAMMA_H_HZ = 267598700 / (2π)` lies strictly
between 42589655.8699 and 42589655.87, i.e. it is approximately
42589655.87, not 42577478.92. -/
theorem C1_gamma_h_hz_value :
    (42589655.8699 : ℝ) < GAMMA_H_HZ ∧ GAMMA_H_HZ < 42589655.87 :=
  ⟨gamma_h_hz_lb, gamma_h_hz_ub⟩

/-- Claim C2: for GammaH = 267598700 the header's `GAMMA_H_SQ` would equal
71628279419690000 to within double-precision rounding of 267598700².
This is FALSE: 267598700² = 71609064241690000 exactly, which differs from
the stated value by 19215178000000. -/
theorem C2_gamma_h_sq_not_spec_value :
    GAMMA_H_SQ ≠ 71628279419690000 ∧
      |GAMMA_H_SQ - 71628279419690000| = 19215178000000 := by
  unfold GAMMA_H_SQ GAMMA_H
  norm_num [abs_of_nonpos]

/-- Claim C2 (amended): `GAMMA_H_SQ = GAMMA_H * GAMMA_H` equals
71609064241690000 exactly (267598700² is an integer below 2⁵⁷ divisible
by 16, hence exactly representable in double precision). -/
theorem C2_gamma_h_sq_value : GAMMA_H_SQ = 71609064241690000 := by
  unfold GAMMA_H_SQ GAMMA_H
  norm_num

/-- Claim C3: when not predefined by the consumer, `GAMMA_H` is exactly the
literal 267.5987 × 10⁶. -/
theorem C3_gamma_h_literal : GAMMA_H = 267.5987 * 10 ^ 6 := by
  unfold GAMMA_H
  norm_num

/-- Claim C4: `GAMMA_H_HZ` equals `GAMMA_H` divided by 2π with π the host
math library's constant (`M_PI`); equivalently `GAMMA_H_HZ × 2π = GAMMA_H`. -/
theorem C4_gamma_h_hz_derivation :
    GAMMA_H_HZ = GAMMA_H / (2 * M_PI) ∧ GAMMA_H_HZ * (2 * M_PI) = GAMMA_H := by
  refine ⟨rfl, ?_⟩
  unfold GAMMA_H_HZ
  exact div_mul_cancel₀ _ (ne_of_gt two_pi_pos)

/-- Claim C5: `GAMMA_H_SQ = GAMMA_H * GAMMA_H` and
`GAMMA_H_HZ_SQ = GAMMA_H_HZ * GAMMA_H_HZ`, both derived exactly as the
square of their base constant (so in particular within any rounding
tolerance). -/
theorem C5_squares_derived :
    GAMMA_H_SQ = GAMMA_H * GAMMA_H ∧ GAMMA_H_HZ_SQ = GAMMA_H_HZ * GAMMA_H_HZ :=
  ⟨rfl, rfl⟩

/-- Claim C6: each of the four constants is a strictly positive (finite)
real value; in this exact real embedding every value is finite and non-NaN,
and strict positivity is proved for all four. -/
theorem C6_all_positive :
    0 < GAMMA_H ∧ 0 < GAMMA_H_HZ ∧ 0 < GAMMA_H_SQ ∧ 0 < GAMMA_H_HZ_SQ := by
  have hg : (0 : ℝ) < GAMMA_H := by rw [gamma_h_val]; norm_num
  have hhz : (0 : ℝ) < GAMMA_H_HZ := div_pos hg two_pi_pos
  exact ⟨hg, hhz, mul_pos hg hg, mul_pos hhz hhz⟩

/-- Claim C7: including the header is idempotent: any number of repeated
inclusions leaves the macro table exactly as after a single inclusion (and,
since a guarded block never redefines an existing binding, no
duplicate-definition error can arise). -/
theorem C7_inclusion_idempotent (s : MacroState) (n : ℕ) :
    includeMRIConstants^[n] (includeMRIConstants s) = includeMRIConstants s :=
  Function.iterate_fixed (includeMRIConstants_idem s) n

/-- Claim C8: define-if-absent — a binding the consumer already defined
(for any of the four names) keeps its value, unchanged and without
conflict, across an inclusion of the header. -/
theorem C8_existing_binding_wins (s : MacroState) (v : ℝ) :
    (s.gamma_h = some v → (includeMRIConstants s).gamma_h = some v) ∧
    (s.gamma_h_hz = some v → (includeMRIConstants s).gamma_h_hz = some v) ∧
    (s.gamma_h_sq = some v → (includeMRIConstants s).gamma_h_sq = some v) ∧
    (s.gamma_h_hz_sq = some v →
      (includeMRIConstants s).gamma_h_hz_sq = some v) := by
  obtain ⟨g, hz, sq, hz_sq⟩ := s
  refine ⟨?_, ?_, ?_, ?_⟩ <;> rintro rfl <;> simp [includeMRIConstants]

/-- Witness for C8 at the concrete table (1, 2, 3, 4): all four predefined
bindings survive inclusion untouched. -/
theorem C8_existing_binding_wins_witness :
    (includeMRIConstants ⟨some 1, some 2, some 3, some 4⟩).gamma_h = some 1 ∧
    (includeMRIConstants ⟨some 1, some 2, some 3, some 4⟩).gamma_h_hz = some 2 ∧
    (includeMRIConstants ⟨some 1, some 2, some 3, some 4⟩).gamma_h_sq = some 3 ∧
    (includeMRIConstants
      ⟨some 1, some 2, some 3, some 4⟩).gamma_h_hz_sq = some 4 :=
  ⟨(C8_existing_binding_wins ⟨some 1, some 2, some 3, some 4⟩ 1).1 rfl,
   (C8_existing_binding_wins ⟨some 1, some 2, some 3, some 4⟩ 2).2.1 rfl,
   (C8_existing_binding_wins ⟨some 1, some 2, some 3, some 4⟩ 3).2.2.1 rfl,
   (C8_existing_binding_wins ⟨some 1, some 2, some 3, some 4⟩ 4).2.2.2 rfl⟩

/-- Claim C9: the derivations track an overridden base — if the consumer
predefines `GAMMA_H` as `v` and leaves the three derived names undefined,
inclusion yields `GAMMA_H_HZ = v/(2π)`, `GAMMA_H_SQ = v·v` and
`GAMMA_H_HZ_SQ = (v/(2π))·(v/(2π))`, computed from the effective base, not
from the literal 267.5987e6. -/
theorem C9_derivations_track_override (s : MacroState) (v : ℝ)
    (h1 : s.gamma_h = some v) (h2 : s.gamma_h_hz = none)
    (h3 : s.gamma_h_sq = none) (h4 : s.gamma_h_hz_sq = none) :
    includeMRIConstants s =
      ⟨some v, some (v / (2 * M_PI)), some (v * v),
        some ((v / (2 * M_PI)) * (v / (2 * M_PI)))⟩ := by
  obtain ⟨g, hz, sq, hz_sq⟩ := s
  simp only [MacroState.mk.injEq] at h1 h2 h3 h4 ⊢
  subst h1 h2 h3 h4
  simp [includeMRIConstants]

/-- Witness for C9 at the concrete table where `GAMMA_H` is predefined
as 3 and the derived names are absent. -/
theorem C9_derivations_track_override_witness :
    includeMRIConstants ⟨some 3, none, none, none⟩ =
      ⟨some 3, some (3 / (2 * M_PI)), some (3 * 3),
        some ((3 / (2 * M_PI)) * (3 / (2 * M_PI)))⟩ :=
  C9_derivations_track_override ⟨some 3, none, none, none⟩ 3 rfl rfl rfl rfl

/-- Claim C10: cross-derivation consistency — in exact real arithmetic,
`GAMMA_H_HZ_SQ` equals `GAMMA_H_SQ` divided by (2π)², so the two squared
constants differ exactly by the factor (2π)². -/
theorem C10_hz_sq_ratio : GAMMA_H_HZ_SQ = GAMMA_H_SQ / (2 * M_PI) ^ 2 := by
  unfold GAMMA_H_HZ_SQ GAMMA_H_SQ GAMMA_H_HZ
  rw [div_mul_div_comm, sq]

end MRIConstants
